import Mathlib

/-!
Verification development for the bulk concurrent retrieval orchestrator of the
kulchur repository (src/kulchur/insaneasylum.py), shallowly embedded in Lean.

The per-identifier loaders `_load_one_book_aio`, `_load_one_user_aio` and
`_load_one_author_aio` wrap one network loader in a retry loop; the network
behaviour of the loader is abstracted as a function from the 0-based attempt
number to an attempt outcome (success with a record, a timeout
(asyncio.TimeoutError), or any other exception).  The orchestrator
`bulk_load_aio` validates the category, dispatches one task per identifier,
drains results in completion order, partitions them into `bulk_data` and
`failed_items`, and computes the summary statistics.

Sleep durations: the code sleeps `(attempt + 1) ** 1.5` seconds.  Since
`x ** 1.5` is irrational for most naturals, each sleep is represented exactly
by the SQUARE of its duration in seconds: the sleep after 0-based attempt
`a` has square `(a + 1) ^ 3`, because `((a+1) ** 1.5) ^ 2 = (a+1) ^ 3` and
squaring is injective on nonnegative reals.
-/

namespace Kulchur

/-- Outcome of one invocation of the underlying network loader
(`alx.load_book_async` + data extraction, and analogously for users and
authors): a record of type `α`, an `asyncio.TimeoutError`, or any other
exception (`except Exception`). -/
inductive AttemptOutcome (α : Type) where
  | success (record : α)
  | timeout
  | fatal
deriving DecidableEq, Repr

/-- The value a per-identifier coroutine returns to `bulk_load_aio`:
the loaded record on success, the identifier string on the
`except Exception` path of the book/user loaders (`return identifer`),
or Python `None` when control falls off the end of the retry loop. -/
inductive OneResult (α : Type) where
  | data (record : α)
  | failedId (identifer : String)
  | pyNone
deriving DecidableEq, Repr

/-- Observable trace of one per-identifier coroutine: its returned value,
how many times the underlying loader was invoked, and the squares (in
seconds²) of the backoff sleeps it performed, in order. -/
structure LoadTrace (α : Type) where
  result : OneResult α
  calls : ℕ
  sleepsSq : List ℕ
deriving DecidableEq, Repr

/-- `num_attempts = max(num_attempts, 1)` followed by `range(num_attempts)`:
the number of loop iterations for a given (Python int) `num_attempts`. -/
def attemptsFuel (num_attempts : ℤ) : ℕ := (max num_attempts 1).toNat

/-- Square of the backoff sleep `(attempt + 1) ** 1.5` performed after the
0-based attempt `attempt` times out (`SLEEP_SCALAR = 1.5`). -/
def sleepSq (attempt : ℕ) : ℕ := (attempt + 1) ^ 3

/-- Retry loop of `_load_one_book_aio` (lines 41-64): iterate over attempts;
on success return the record (both the `similar_books` branch and the async
branch return the extracted data); on `asyncio.TimeoutError` sleep
`(attempt+1) ** 1.5` seconds and continue; on any other exception return the
identifier string.  Falling off the loop returns Python `None`. -/
def loadLoopBook {α : Type} (loader : ℕ → AttemptOutcome α) (identifer : String) :
    ℕ → ℕ → LoadTrace α
  | 0, _ => ⟨OneResult.pyNone, 0, []⟩
  | fuel + 1, attempt =>
    match loader attempt with
    | AttemptOutcome.success r => ⟨OneResult.data r, 1, []⟩
    | AttemptOutcome.timeout =>
      let rest := loadLoopBook loader identifer fuel (attempt + 1)
      ⟨rest.result, rest.calls + 1, sleepSq attempt :: rest.sleepsSq⟩
    | AttemptOutcome.fatal => ⟨OneResult.failedId identifer, 1, []⟩

/-- Retry loop of `_load_one_user_aio` (lines 86-105); control flow is
identical to the book loop. -/
def loadLoopUser {α : Type} (loader : ℕ → AttemptOutcome α) (identifer : String) :
    ℕ → ℕ → LoadTrace α
  | 0, _ => ⟨OneResult.pyNone, 0, []⟩
  | fuel + 1, attempt =>
    match loader attempt with
    | AttemptOutcome.success r => ⟨OneResult.data r, 1, []⟩
    | AttemptOutcome.timeout =>
      let rest := loadLoopUser loader identifer fuel (attempt + 1)
      ⟨rest.result, rest.calls + 1, sleepSq attempt :: rest.sleepsSq⟩
    | AttemptOutcome.fatal => ⟨OneResult.failedId identifer, 1, []⟩

/-- Retry loop of `_load_one_author_aio` (lines 127-145).  Unlike the book
and user loops, the `except Exception` handler (lines 144-145) only prints
the error and does NOT return, so the loop proceeds to the next attempt
without sleeping; exhaustion again returns Python `None`. -/
def loadLoopAuthor {α : Type} (loader : ℕ → AttemptOutcome α) (identifer : String) :
    ℕ → ℕ → LoadTrace α
  | 0, _ => ⟨OneResult.pyNone, 0, []⟩
  | fuel + 1, attempt =>
    match loader attempt with
    | AttemptOutcome.success r => ⟨OneResult.data r, 1, []⟩
    | AttemptOutcome.timeout =>
      let rest := loadLoopAuthor loader identifer fuel (attempt + 1)
      ⟨rest.result, rest.calls + 1, sleepSq attempt :: rest.sleepsSq⟩
    | AttemptOutcome.fatal =>
      let rest := loadLoopAuthor loader identifer fuel (attempt + 1)
      ⟨rest.result, rest.calls + 1, rest.sleepsSq⟩

/-- `_load_one_book_aio`: clamp `num_attempts` to at least 1, then run the
retry loop from attempt 0.  The semaphore wrapping the body is modelled
separately (see the `Gate` section). -/
def load_one_book_aio {α : Type} (loader : ℕ → AttemptOutcome α) (identifer : String)
    (num_attempts : ℤ) : LoadTrace α :=
  loadLoopBook loader identifer (attemptsFuel num_attempts) 0

/-- `_load_one_user_aio`: same clamping and loop as the book loader. -/
def load_one_user_aio {α : Type} (loader : ℕ → AttemptOutcome α) (identifer : String)
    (num_attempts : ℤ) : LoadTrace α :=
  loadLoopUser loader identifer (attemptsFuel num_attempts) 0

/-- `_load_one_author_aio`: same clamping, author retry loop. -/
def load_one_author_aio {α : Type} (loader : ℕ → AttemptOutcome α) (identifer : String)
    (num_attempts : ℤ) : LoadTrace α :=
  loadLoopAuthor loader identifer (attemptsFuel num_attempts) 0

/-! ## The bulk orchestrator `bulk_load_aio` (lines 148-243) -/

/-- Which per-identifier loader function `cat_fn_map` selects.  The three
values stand for `_load_one_book_aio`, `_load_one_user_aio`,
`_load_one_author_aio`. -/
inductive Cat where
  | book
  | user
  | author
deriving DecidableEq, Repr

/-- Dispatch through the value picked out of `cat_fn_map`. -/
def loadOneByCat {α : Type} (c : Cat) (loader : ℕ → AttemptOutcome α)
    (identifer : String) (num_attempts : ℤ) : LoadTrace α :=
  match c with
  | Cat.book => load_one_book_aio loader identifer num_attempts
  | Cat.user => load_one_user_aio loader identifer num_attempts
  | Cat.author => load_one_author_aio loader identifer num_attempts

/-- Python `category.lower()` (line 172), as a character-wise ASCII
lowering.  (Lean's own `String.toLower` is the same map but is defined by
well-founded recursion over byte positions and does not kernel-reduce;
this definition agrees with `str.lower` on all ASCII strings, which is all
a category name can be.) -/
def pyLower (s : String) : String := ⟨s.data.map Char.toLower⟩

/-- The literal list `['book', 'user', 'author']` that the lowered category
is validated against (line 173). -/
def valid_categories : List String := ["book", "user", "author"]

/-- The dict `cat_fn_map` (lines 176-180): keys are the lowercase category
names, values the three loader coroutines. -/
def cat_fn_map : List (String × Cat) :=
  [("book", Cat.book), ("user", Cat.user), ("author", Cat.author)]

/-- Exceptions `bulk_load_aio` can raise synchronously: the explicit
`ValueError` for an invalid category (line 174), the `KeyError` from
`cat_fn_map[category]` when the original string is not a key (line 181),
and the `ZeroDivisionError` from `successes / attempted` (line 212). -/
inductive BulkError where
  | valueError
  | keyError
  | zeroDivisionError
deriving DecidableEq, Repr

/-- `isinstance(result, str)` (line 202): only the book/user failure path
returns a `str`; records are dicts or SimpleNamespace, never `str`. -/
def resultIsStr {α : Type} : OneResult α → Bool
  | OneResult.data _ => false
  | OneResult.failedId _ => true
  | OneResult.pyNone => false

/-- Extract the failed identifier from a drained result, for building
`failed_items`. -/
def failedOf {α : Type} : OneResult α → Option String
  | OneResult.data _ => none
  | OneResult.failedId s => some s
  | OneResult.pyNone => none

/-- The identifier recoverable from one drained outcome: a failure outcome
IS the identifier string, and a successful record carries its identifier in
its `id` attribute — modelled by instantiating the record type `α` at
`String` and letting the loader succeed with the identifier it was invoked
for.  A Python `None` outcome carries no identifier. -/
def outcomeId : OneResult String → Option String
  | OneResult.data r => some r
  | OneResult.failedId s => some s
  | OneResult.pyNone => none

/-- Python truthiness of an optional int, as used by
`if batch_delay and batch_size:` (line 198): `None` and `0` are falsy. -/
def truthyInt : Option ℤ → Bool
  | none => false
  | some v => v != 0

/-- Number of pacing sleeps the drain loop performs (lines 198-200): before
draining the item with 0-based completion counter `i`, sleep `batch_delay`
seconds when both batch options are truthy, `i > 0` and `i % batch_size == 0`. -/
def batchSleepCount (batch_delay batch_size : Option ℤ) (total : ℕ) : ℕ :=
  if truthyInt batch_delay && truthyInt batch_size then
    ((List.range total).filter
      (fun i => decide (0 < i) && ((i : ℤ) % batch_size.getD 1 == 0))).length
  else 0

/-- Everything `bulk_load_aio` computes about a completed run: the two
partitioned collections, the summary statistics it prints (and would
serialize), plus two instrumentation fields — the total number of loader
invocations across all tasks and the number of batch-pacing sleeps. -/
structure BulkRun (α : Type) where
  bulk_data : List (OneResult α)
  failed_items : List String
  attempted : ℕ
  successes : ℕ
  failures : ℤ
  success_rate : ℚ
  total_calls : ℕ
  batch_sleeps : ℕ
deriving DecidableEq, Repr

/-- The identifiers recoverable from a completed run's outcome collections:
the `id` carried by each successful record together with the failed
identifiers. -/
def runOutcomeIds (r : BulkRun String) : List String :=
  r.bulk_data.filterMap outcomeId ++ r.failed_items

/-- The per-task results drained by the `async for` loop, in completion
order.  `completed` is the order in which the scheduler happens to finish
the tasks — a permutation of `identifiers`; `behavior id_` is the network
behaviour of the loader on that identifier, per attempt. -/
def drainedResults {α : Type} (c : Cat) (behavior : String → ℕ → AttemptOutcome α)
    (num_attempts : ℤ) (completed : List String) : List (LoadTrace α) :=
  completed.map (fun id_ => loadOneByCat c (behavior id_) id_ num_attempts)

/-- The aggregation performed by the drain loop and the summary lines
(lines 197-212) once the chosen loader `cat_fn` is fixed: partition the
drained results by `isinstance(result, str)`, then compute the summary
counters exactly as the source does. -/
def bulkRunOf {α : Type} (cat_fn : Cat) (identifiers : List String)
    (behavior : String → ℕ → AttemptOutcome α) (num_attempts : ℤ)
    (batch_delay batch_size : Option ℤ) (completed : List String) : BulkRun α :=
  let results := drainedResults cat_fn behavior num_attempts completed
  let bulk_data := (results.map LoadTrace.result).filter (fun r => !(resultIsStr r))
  let failed_items := (results.map LoadTrace.result).filterMap failedOf
  let attempted := identifiers.length
  let successes := bulk_data.length
  ⟨bulk_data, failed_items, attempted, successes,
    (attempted : ℤ) - (successes : ℤ),
    (successes : ℚ) / (attempted : ℚ),
    (results.map LoadTrace.calls).sum,
    batchSleepCount batch_delay batch_size completed.length⟩

/-- `bulk_load_aio` (lines 148-243), with the network abstracted by
`behavior` and the completion order by `completed`:

* `cat = category.lower()`; raise `ValueError` if `cat` is not one of the
  three valid names (lines 172-174);
* `cat_fn = cat_fn_map[category]` — NOTE: the lookup uses the ORIGINAL
  `category` string, not `cat`, so a mixed-case known category raises
  `KeyError` here (line 181);
* one task per identifier; results drained in completion order and
  partitioned by `isinstance(result, str)` into `failed_items` and
  `bulk_data` (lines 197-206, via `bulkRunOf`);
* `attempted = len(identifiers)`, `successes = len(bulk_data)`,
  `failures = len(identifiers) - successes`,
  `success_rate = successes / attempted` — a `ZeroDivisionError` when
  `identifiers` is empty (lines 209-212). -/
def bulk_load_aio {α : Type} (category : String) (identifiers : List String)
    (behavior : String → ℕ → AttemptOutcome α) (num_attempts : ℤ)
    (batch_delay batch_size : Option ℤ) (completed : List String) :
    Except BulkError (BulkRun α) :=
  if pyLower category ∈ valid_categories then
    match cat_fn_map.lookup category with
    | none => Except.error BulkError.keyError
    | some cat_fn =>
      if identifiers.length = 0 then Except.error BulkError.zeroDivisionError
      else
        Except.ok
          (bulkRunOf cat_fn identifiers behavior num_attempts batch_delay batch_size completed)
  else Except.error BulkError.valueError

/-! ## The persisted JSON report (lines 213-227) -/

/-- Values appearing in the serialized report dict `json_dat`; the results
payload is opaque here. -/
inductive JVal where
  | jstr (s : String)
  | jnat (n : ℕ)
  | jint (n : ℤ)
  | jrat (q : ℚ)
  | jlist (l : List String)
  | jresults
deriving DecidableEq, Repr

/-- The dict literal `json_dat` written when `write_json` is set
(lines 215-225), as an ordered association list.  The failed-identifier
key is the f-string interpolation of the lowered category name. -/
def json_dat (cat time_start time_end : String) (attempted successes : ℕ)
    (failures : ℤ) (failed_items : List String) (success_rate : ℚ) :
    List (String × JVal) :=
  [("category", JVal.jstr cat),
   ("query_start", JVal.jstr time_start),
   ("query_end", JVal.jstr time_end),
   ("attempted", JVal.jnat attempted),
   ("successes", JVal.jnat successes),
   ("failures", JVal.jint failures),
   (cat ++ "s_failed", JVal.jlist failed_items),
   ("success_rate", JVal.jrat success_rate),
   ("results", JVal.jresults)]

/-- Modelled from the spec, for comparison only: the field list the spec
(section 4.4) claims the serialized report contains. -/
def spec_report_fields : List String :=
  ["category", "start_time", "end_time", "attempted", "succeeded", "failed",
   "failed_identifiers", "success_rate", "results"]

/-! ## The concurrency gate (lines 39, 85, 126, 183)

`bulk_load_aio` creates `asyncio.Semaphore(semaphore_count)` and each
per-identifier coroutine wraps its whole body — the retry loop with its
loader calls and backoff sleeps — in `async with semaphore`.  We model the
run as a transition system: each task is pending (not yet entered the
`async with`), executing its body (holding a slot; `work` counts the body
steps remaining), or finished (the `async with` exited, which releases the
slot on every exit path — normal return, exception, or retry exhaustion).
An `asyncio.Semaphore` initialized with `N` admits an acquirer exactly when
fewer than `N` holders exist; release never blocks. -/

/-- Phase of one per-identifier task with respect to the semaphore. -/
inductive TaskPhase where
  | pending
  | inBody (work : ℕ)
  | finished
deriving DecidableEq, Repr

/-- Whether a task currently holds a semaphore slot (is inside
`async with semaphore`). -/
def TaskPhase.holdsSlot : TaskPhase → Bool
  | TaskPhase.inBody _ => true
  | _ => false

/-- Number of loader invocations currently in flight: tasks inside the
`async with` body. -/
def inFlight (ts : List TaskPhase) : ℕ :=
  (ts.filter TaskPhase.holdsSlot).length

/-- One scheduler step of a run whose semaphore was created with capacity
`N`.  `acquire` admits a pending task only when fewer than `N` slots are
held (the semaphore's counter is positive); `work` advances a body (a
loader call, a backoff sleep, …); `release` exits the `async with`,
unconditionally — it has no guard, mirroring that releasing a semaphore
never blocks and happens on every exit path of the body. -/
inductive GateStep (N : ℕ) : List TaskPhase → List TaskPhase → Prop
  | acquire (pre post : List TaskPhase) (w : ℕ)
      (hfree : inFlight (pre ++ TaskPhase.pending :: post) < N) :
      GateStep N (pre ++ TaskPhase.pending :: post)
        (pre ++ TaskPhase.inBody w :: post)
  | work (pre post : List TaskPhase) (w : ℕ) :
      GateStep N (pre ++ TaskPhase.inBody (w + 1) :: post)
        (pre ++ TaskPhase.inBody w :: post)
  | release (pre post : List TaskPhase) :
      GateStep N (pre ++ TaskPhase.inBody 0 :: post)
        (pre ++ TaskPhase.finished :: post)

/-- Initial state of a bulk run: one pending task per identifier
(the task list built on lines 187-193). -/
def initTasks (identifiers : List String) : List TaskPhase :=
  identifiers.map (fun _ => TaskPhase.pending)

/-- States a run can reach from its initial state. -/
def GateReachable (N : ℕ) (identifiers : List String) (s : List TaskPhase) : Prop :=
  Relation.ReflTransGen (GateStep N) (initTasks identifiers) s

theorem inFlight_append (l₁ l₂ : List TaskPhase) :
    inFlight (l₁ ++ l₂) = inFlight l₁ + inFlight l₂ := by
  simp [inFlight, List.filter_append]

theorem inFlight_cons_pending (l : List TaskPhase) :
    inFlight (TaskPhase.pending :: l) = inFlight l := by
  simp [inFlight, List.filter_cons, TaskPhase.holdsSlot]

theorem inFlight_cons_inBody (w : ℕ) (l : List TaskPhase) :
    inFlight (TaskPhase.inBody w :: l) = inFlight l + 1 := by
  simp [inFlight, List.filter_cons, TaskPhase.holdsSlot]

theorem inFlight_cons_finished (l : List TaskPhase) :
    inFlight (TaskPhase.finished :: l) = inFlight l := by
  simp [inFlight, List.filter_cons, TaskPhase.holdsSlot]

/-- The gate bound is preserved by every scheduler step. -/
theorem inFlight_le_of_gateStep (N : ℕ) (s s' : List TaskPhase)
    (hstep : GateStep N s s') (hs : inFlight s ≤ N) : inFlight s' ≤ N := by
  cases hstep with
  | acquire pre post w hfree =>
    simp only [inFlight_append, inFlight_cons_pending, inFlight_cons_inBody] at hfree ⊢
    omega
  | work pre post w =>
    simp only [inFlight_append, inFlight_cons_inBody] at hs ⊢
    omega
  | release pre post =>
    simp only [inFlight_append, inFlight_cons_inBody, inFlight_cons_finished] at hs ⊢
    omega

theorem inFlight_initTasks (identifiers : List String) :
    inFlight (initTasks identifiers) = 0 := by
  induction identifiers with
  | nil => rfl
  | cons a t ih => simpa [initTasks, inFlight_cons_pending] using ih

/-! ## General lemmas about the retry loops and the aggregation -/

theorem attemptsFuel_coe (k : ℕ) (hk : 1 ≤ k) : attemptsFuel (k : ℤ) = k := by
  simp only [attemptsFuel]
  omega

/-- Full characterization of the book retry loop on an always-timing-out
loader: every iteration invokes the loader once, sleeps
`(attempt + 1) ** 1.5` seconds, and the loop finally falls through to
Python `None`. -/
theorem loadLoopBook_timeout {α : Type} (identifer : String) (fuel start : ℕ) :
    loadLoopBook (α := α) (fun _ => AttemptOutcome.timeout) identifer fuel start =
      ⟨OneResult.pyNone, fuel, (List.range fuel).map (fun j => sleepSq (start + j))⟩ := by
  induction fuel generalizing start with
  | zero => simp [loadLoopBook]
  | succ n ih =>
    rw [loadLoopBook, ih (start + 1), List.range_succ_eq_map, List.map_cons, List.map_map]
    refine congrArg (LoadTrace.mk OneResult.pyNone (n + 1)) ?_
    refine congrArg₂ List.cons (by rw [Nat.add_zero]) ?_
    apply List.map_congr_left
    intro j hj
    simp only [Function.comp_apply]
    congr 1
    omega

/-- Every slot of the partition receives exactly one entry per drained
result: the lengths of `bulk_data` and `failed_items` sum to the number of
results. -/
theorem length_partition {α : Type} (l : List (OneResult α)) :
    (l.filter (fun r => !(resultIsStr r))).length + (l.filterMap failedOf).length
      = l.length := by
  induction l with
  | nil => simp
  | cons a t ih =>
    cases a with
    | data r =>
      have e1 : (OneResult.data (α := α) r :: t).filter (fun x => !(resultIsStr x)) =
          OneResult.data r :: t.filter (fun x => !(resultIsStr x)) := rfl
      have e2 : (OneResult.data (α := α) r :: t).filterMap failedOf =
          t.filterMap failedOf := rfl
      rw [e1, e2, List.length_cons, List.length_cons]
      omega
    | failedId s =>
      have e1 : (OneResult.failedId (α := α) s :: t).filter (fun x => !(resultIsStr x)) =
          t.filter (fun x => !(resultIsStr x)) := rfl
      have e2 : (OneResult.failedId (α := α) s :: t).filterMap failedOf =
          s :: t.filterMap failedOf := rfl
      rw [e1, e2, List.length_cons, List.length_cons]
      omega
    | pyNone =>
      have e1 : (OneResult.pyNone (α := α) :: t).filter (fun x => !(resultIsStr x)) =
          OneResult.pyNone :: t.filter (fun x => !(resultIsStr x)) := rfl
      have e2 : (OneResult.pyNone (α := α) :: t).filterMap failedOf =
          t.filterMap failedOf := rfl
      rw [e1, e2, List.length_cons, List.length_cons]
      omega

/-- When every drained result carries its own identifier, an identifier is
recoverable from the partitioned outcome collections exactly when it was
submitted. -/
theorem mem_partition_iff (g : String → OneResult String) (l : List String)
    (hids : ∀ id_ ∈ l, outcomeId (g id_) = some id_) (x : String) :
    (x ∈ ((l.map g).filter (fun r => !(resultIsStr r))).filterMap outcomeId ∨
     x ∈ (l.map g).filterMap failedOf) ↔ x ∈ l := by
  induction l with
  | nil => simp
  | cons a t ih =>
    have ha := hids a (List.mem_cons_self a t)
    have iht := ih (fun id_ hmem => hids id_ (List.mem_cons_of_mem a hmem))
    rw [List.map_cons]
    cases hres : g a with
    | data r =>
      have hr : r = a := by
        rw [hres] at ha
        simpa [outcomeId] using ha
      subst hr
      rw [List.filter_cons, List.filterMap_cons]
      simp only [resultIsStr, Bool.not_false, if_true, List.filterMap_cons, outcomeId,
        failedOf, List.mem_cons]
      rw [← iht]
      tauto
    | failedId s =>
      have hs : s = a := by
        rw [hres] at ha
        simpa [outcomeId] using ha
      subst hs
      rw [List.filter_cons, List.filterMap_cons]
      simp only [resultIsStr, Bool.not_true, if_false, failedOf, List.mem_cons,
        Option.mem_def, ite_false]
      rw [← iht]
      tauto
    | pyNone =>
      rw [hres] at ha
      simp [outcomeId] at ha

/-- Inversion on a successful `bulk_load_aio` run: the lowered category
validated, the identifier list was non-empty, and the returned value is
the aggregation of the drained results for the loader the (un-lowered)
category string selected. -/
theorem bulk_ok_elim {α : Type} {category : String} {identifiers completed : List String}
    {behavior : String → ℕ → AttemptOutcome α} {num_attempts : ℤ}
    {batch_delay batch_size : Option ℤ} {r : BulkRun α}
    (h : bulk_load_aio category identifiers behavior num_attempts
          batch_delay batch_size completed = Except.ok r) :
    pyLower category ∈ valid_categories ∧ identifiers ≠ [] ∧
      ∃ c, cat_fn_map.lookup category = some c ∧
        r = bulkRunOf c identifiers behavior num_attempts batch_delay batch_size completed := by
  by_cases hval : pyLower category ∈ valid_categories
  · cases hlook : cat_fn_map.lookup category with
    | none =>
      unfold bulk_load_aio at h
      rw [if_pos hval, hlook] at h
      simp at h
    | some c =>
      by_cases hz : identifiers.length = 0
      · unfold bulk_load_aio at h
        rw [if_pos hval, hlook] at h
        dsimp only at h
        rw [if_pos hz] at h
        simp at h
      · unfold bulk_load_aio at h
        rw [if_pos hval, hlook] at h
        dsimp only at h
        rw [if_neg hz] at h
        refine ⟨hval, ?_, c, rfl, (Except.ok.inj h).symm⟩
        intro hnil
        exact hz (by simp [hnil])
  · unfold bulk_load_aio at h
    rw [if_neg hval] at h
    simp at h

theorem bulkRunOf_attempted {α : Type} (c : Cat) (identifiers : List String)
    (behavior : String → ℕ → AttemptOutcome α) (n : ℤ) (bd bs : Option ℤ)
    (completed : List String) :
    (bulkRunOf c identifiers behavior n bd bs completed).attempted
      = identifiers.length := rfl

theorem bulkRunOf_successes {α : Type} (c : Cat) (identifiers : List String)
    (behavior : String → ℕ → AttemptOutcome α) (n : ℤ) (bd bs : Option ℤ)
    (completed : List String) :
    (bulkRunOf c identifiers behavior n bd bs completed).successes
      = (((drainedResults c behavior n completed).map LoadTrace.result).filter
          (fun r => !(resultIsStr r))).length := rfl

theorem bulkRunOf_bulk_data {α : Type} (c : Cat) (identifiers : List String)
    (behavior : String → ℕ → AttemptOutcome α) (n : ℤ) (bd bs : Option ℤ)
    (completed : List String) :
    (bulkRunOf c identifiers behavior n bd bs completed).bulk_data
      = ((drainedResults c behavior n completed).map LoadTrace.result).filter
          (fun r => !(resultIsStr r)) := rfl

theorem bulkRunOf_failed_items {α : Type} (c : Cat) (identifiers : List String)
    (behavior : String → ℕ → AttemptOutcome α) (n : ℤ) (bd bs : Option ℤ)
    (completed : List String) :
    (bulkRunOf c identifiers behavior n bd bs completed).failed_items
      = ((drainedResults c behavior n completed).map LoadTrace.result).filterMap failedOf :=
  rfl

theorem bulkRunOf_failures {α : Type} (c : Cat) (identifiers : List String)
    (behavior : String → ℕ → AttemptOutcome α) (n : ℤ) (bd bs : Option ℤ)
    (completed : List String) :
    (bulkRunOf c identifiers behavior n bd bs completed).failures
      = (identifiers.length : ℤ)
        - ((bulkRunOf c identifiers behavior n bd bs completed).successes : ℤ) := rfl

theorem bulkRunOf_success_rate {α : Type} (c : Cat) (identifiers : List String)
    (behavior : String → ℕ → AttemptOutcome α) (n : ℤ) (bd bs : Option ℤ)
    (completed : List String) :
    (bulkRunOf c identifiers behavior n bd bs completed).success_rate
      = ((bulkRunOf c identifiers behavior n bd bs completed).successes : ℚ)
        / ((bulkRunOf c identifiers behavior n bd bs completed).attempted : ℚ) := rfl

theorem length_map_result {α : Type} (c : Cat) (behavior : String → ℕ → AttemptOutcome α)
    (n : ℤ) (completed : List String) :
    ((drainedResults c behavior n completed).map LoadTrace.result).length
      = completed.length := by
  simp [drainedResults]

/-- The drained result of each task, as a function of the identifier. -/
theorem map_result_drained {α : Type} (c : Cat) (behavior : String → ℕ → AttemptOutcome α)
    (n : ℤ) (completed : List String) :
    (drainedResults c behavior n completed).map LoadTrace.result
      = completed.map (fun id_ => (loadOneByCat c (behavior id_) id_ n).result) := by
  rw [drainedResults, List.map_map]
  rfl

/-! ## The claims -/

/-- C1 (code bug): with an always-timing-out loader and `num_attempts = 3`,
the loader IS invoked exactly 3 times (this half of the claim holds), but
the identifier is then NOT recorded as failed: the coroutine falls off its
retry loop and returns Python `None`, which fails the `isinstance(result,
str)` test, so the drain loop appends it to `bulk_data` — the run ends with
`failed_items = []`, the exhausted identifier counted among the successes
(`successes = 1`, `failures = 0`), contradicting the claim that it appears
in the failed-identifiers collection. -/
theorem c1_transient_exhaustion_counted_as_success :
    load_one_book_aio (α := Unit) (fun _ => AttemptOutcome.timeout) "19117" 3 =
      ⟨OneResult.pyNone, 3, [1, 8, 27]⟩ ∧
    (bulk_load_aio (α := Unit) "book" ["19117"] (fun _ _ => AttemptOutcome.timeout) 3
        none none ["19117"]).toOption.map
      (fun r => (r.failed_items, r.bulk_data, r.successes, r.failures, r.total_calls)) =
      some ([], [OneResult.pyNone], 1, 0, 3) :=
  ⟨rfl, rfl⟩

/-- C2: for every completed bulk run over a non-empty identifier list (the
drain order being any permutation of the submitted identifiers), the
printed/serialized summary satisfies `attempted = successes + failures`,
`failed_items` has exactly `failures` entries, and
`success_rate = successes / attempted`. -/
theorem c2_summary_invariant {α : Type} (category : String)
    (identifiers completed : List String) (behavior : String → ℕ → AttemptOutcome α)
    (num_attempts : ℤ) (batch_delay batch_size : Option ℤ) (r : BulkRun α)
    (hperm : completed.Perm identifiers) (hne : identifiers ≠ [])
    (h : bulk_load_aio category identifiers behavior num_attempts batch_delay batch_size
          completed = Except.ok r) :
    (r.attempted : ℤ) = (r.successes : ℤ) + r.failures ∧
    (r.failed_items.length : ℤ) = r.failures ∧
    r.success_rate = (r.successes : ℚ) / (r.attempted : ℚ) := by
  obtain ⟨-, -, c, -, hr⟩ := bulk_ok_elim h
  subst hr
  refine ⟨?_, ?_, rfl⟩
  · rw [bulkRunOf_attempted, bulkRunOf_failures]
    ring
  · rw [bulkRunOf_failed_items, bulkRunOf_failures, bulkRunOf_successes]
    have hpart :=
      length_partition ((drainedResults c behavior num_attempts completed).map LoadTrace.result)
    have hlen := length_map_result c behavior num_attempts completed
    have hcl : completed.length = identifiers.length := hperm.length_eq
    omega

/-- C2 witness: a concrete two-identifier book run (one success, one
non-transient failure, drained in reversed order) satisfying the summary
invariant. -/
theorem c2_witness :
    (((bulkRunOf Cat.book ["19117", "7784"]
        (fun id_ _ => if id_ = "19117" then AttemptOutcome.success () else AttemptOutcome.fatal)
        1 none none ["7784", "19117"]).attempted : ℤ)
      = ((bulkRunOf Cat.book ["19117", "7784"]
        (fun id_ _ => if id_ = "19117" then AttemptOutcome.success () else AttemptOutcome.fatal)
        1 none none ["7784", "19117"]).successes : ℤ)
        + (bulkRunOf Cat.book ["19117", "7784"]
        (fun id_ _ => if id_ = "19117" then AttemptOutcome.success () else AttemptOutcome.fatal)
        1 none none ["7784", "19117"]).failures) ∧
    (((bulkRunOf Cat.book ["19117", "7784"]
        (fun id_ _ => if id_ = "19117" then AttemptOutcome.success () else AttemptOutcome.fatal)
        1 none none ["7784", "19117"]).failed_items.length : ℤ)
      = (bulkRunOf Cat.book ["19117", "7784"]
        (fun id_ _ => if id_ = "19117" then AttemptOutcome.success () else AttemptOutcome.fatal)
        1 none none ["7784", "19117"]).failures) ∧
    (bulkRunOf Cat.book ["19117", "7784"]
        (fun id_ _ => if id_ = "19117" then AttemptOutcome.success () else AttemptOutcome.fatal)
        1 none none ["7784", "19117"]).success_rate
      = ((bulkRunOf Cat.book ["19117", "7784"]
        (fun id_ _ => if id_ = "19117" then AttemptOutcome.success () else AttemptOutcome.fatal)
        1 none none ["7784", "19117"]).successes : ℚ)
        / ((bulkRunOf Cat.book ["19117", "7784"]
        (fun id_ _ => if id_ = "19117" then AttemptOutcome.success () else AttemptOutcome.fatal)
        1 none none ["7784", "19117"]).attempted : ℚ) :=
  c2_summary_invariant "book" ["19117", "7784"] ["7784", "19117"]
    (fun id_ _ => if id_ = "19117" then AttemptOutcome.success () else AttemptOutcome.fatal)
    1 none none _ (by decide) (by decide) rfl

/-- C3 (code bug): calling the orchestrator on an empty identifier list does
not return an empty summary — `success_rate = successes / attempted`
divides by zero and the call raises `ZeroDivisionError`. -/
theorem c3_empty_list_division_fault :
    bulk_load_aio (α := Unit) "book" [] (fun _ _ => AttemptOutcome.timeout) 1
      none none [] = Except.error BulkError.zeroDivisionError := rfl

/-- C4 counterexample: with an always-timing-out loader and
`num_attempts = 2`, the first backoff sleep (the one before 1-based attempt
2) is `1 ** 1.5 = 1` second (square 1), not the `2 ** 1.5 ≈ 2.83` seconds
(square 8) the claim asserts. -/
theorem c4_first_sleep_is_one_second :
    (load_one_book_aio (α := Unit) (fun _ => AttemptOutcome.timeout) "19117" 2).sleepsSq.head?
        = some 1 ∧
    ¬ ((load_one_book_aio (α := Unit) (fun _ => AttemptOutcome.timeout) "19117" 2).sleepsSq.head?
        = some (2 ^ 3)) :=
  ⟨rfl, by decide⟩

/-- C4 as amended: the backoff sleep is a pure function of the attempt
index with exponent exactly 1.5, but one step earlier than claimed: the
sleep after the (1-based) i-th transient failure — i.e. before attempt
i + 1 — is `i ** 1.5` seconds (represented by its square `i ^ 3`), so
attempt 1's wait is 1 s and attempt 2's is `2 ** 1.5 ≈ 2.83` s; moreover
the code also sleeps after the final failed attempt. -/
theorem c4_backoff_formula (k : ℕ) (hk : 1 ≤ k) (identifer : String) :
    (load_one_book_aio (α := Unit) (fun _ => AttemptOutcome.timeout) identifer
        (k : ℤ)).sleepsSq
      = (List.range k).map (fun i => (i + 1) ^ 3) := by
  rw [load_one_book_aio, attemptsFuel_coe k hk, loadLoopBook_timeout]
  apply List.map_congr_left
  intro j hj
  simp [sleepSq]

/-- C4 witness: the amended backoff formula at `num_attempts = 2`. -/
theorem c4_witness :
    1 ≤ 2 ∧
    (load_one_book_aio (α := Unit) (fun _ => AttemptOutcome.timeout) "19117"
        ((2 : ℕ) : ℤ)).sleepsSq
      = (List.range 2).map (fun i => (i + 1) ^ 3) :=
  ⟨by decide, c4_backoff_formula 2 (by decide) "19117"⟩

/-- C5 (code bug): a non-transient failure is handled as claimed by the
book and user loaders (exactly one invocation, identifier returned as a
failure marker), but NOT by the author loader: its `except Exception`
handler does not return, so the loop retries — with `num_attempts = 4` the
loader is invoked 4 times, and the exhausted loop returns Python `None`,
so at the bulk level the identifier never reaches `failed_items` and the
`None` is counted as a success.  The behaviour is not uniform across the
three categories. -/
theorem c5_author_fatal_retried_and_lost :
    load_one_book_aio (α := Unit) (fun _ => AttemptOutcome.fatal) "112858" 4 =
      ⟨OneResult.failedId "112858", 1, []⟩ ∧
    load_one_user_aio (α := Unit) (fun _ => AttemptOutcome.fatal) "112858" 4 =
      ⟨OneResult.failedId "112858", 1, []⟩ ∧
    load_one_author_aio (α := Unit) (fun _ => AttemptOutcome.fatal) "112858" 4 =
      ⟨OneResult.pyNone, 4, []⟩ ∧
    (bulk_load_aio (α := Unit) "author" ["112858"] (fun _ _ => AttemptOutcome.fatal) 4
        none none ["112858"]).toOption.map
      (fun r => (r.failed_items, r.bulk_data, r.successes, r.total_calls)) =
      some ([], [OneResult.pyNone], 1, 4) :=
  ⟨rfl, rfl, rfl, rfl⟩

/-- C6 counterexample: one identifier whose loader exhausts its transient
retries yields an outcome (`None`) from which no identifier is recoverable:
the identifiers across the run's outcomes are `[]`, not `set(L)`. -/
theorem c6_exhausted_identifier_unrecoverable :
    ¬ (∀ x, x ∈ ((bulk_load_aio "book" ["19117"]
          (fun _ _ => AttemptOutcome.timeout (α := String)) 1 none none
          ["19117"]).toOption.map runOutcomeIds).getD [] ↔ x ∈ ["19117"]) := by
  intro hall
  exact absurd ((hall "19117").mpr (by decide)) (by decide)

/-- C6 as amended: every completed bulk run yields exactly one outcome per
submitted identifier — `len(bulk_data) + len(failed_items) = len(L)` holds
unconditionally, for every loader behaviour, including runs where tasks
fall off their retry loop to Python `None`; and, additionally, whenever
every per-identifier task settles with an identifier-bearing outcome
(i.e. no task returns `None`, which transient exhaustion and non-transient
author failures would cause, and every successful record embeds the
identifier it was loaded for), an identifier is recoverable from the
outcomes exactly when it was submitted. -/
theorem c6_outcomes_complete (category : String)
    (identifiers completed : List String)
    (behavior : String → ℕ → AttemptOutcome String) (num_attempts : ℤ)
    (batch_delay batch_size : Option ℤ) (r : BulkRun String)
    (hperm : completed.Perm identifiers)
    (h : bulk_load_aio category identifiers behavior num_attempts batch_delay batch_size
          completed = Except.ok r) :
    r.bulk_data.length + r.failed_items.length = identifiers.length ∧
    (∀ c, cat_fn_map.lookup category = some c →
      (∀ id_ ∈ completed,
        outcomeId (loadOneByCat c (behavior id_) id_ num_attempts).result = some id_) →
      ∀ x, x ∈ runOutcomeIds r ↔ x ∈ identifiers) := by
  obtain ⟨-, -, c', hc', hr⟩ := bulk_ok_elim h
  subst hr
  constructor
  · rw [bulkRunOf_bulk_data, bulkRunOf_failed_items]
    have hpart :=
      length_partition ((drainedResults c' behavior num_attempts completed).map LoadTrace.result)
    have hlen := length_map_result c' behavior num_attempts completed
    have hcl : completed.length = identifiers.length := hperm.length_eq
    omega
  · intro c hc hids x
    rw [hc'] at hc
    obtain rfl : c' = c := Option.some.inj hc
    rw [runOutcomeIds, List.mem_append, bulkRunOf_bulk_data, bulkRunOf_failed_items,
      map_result_drained]
    rw [mem_partition_iff _ completed hids x]
    exact hperm.mem_iff

/-- C6 witness: the unconditional count at a run whose only task exhausts
its transient retries to a `None` outcome (one outcome for one
identifier), and identifier recovery at a two-identifier run (one success
carrying its identifier, one non-transient book failure) drained in
reversed completion order. -/
theorem c6_witness :
    ((bulkRunOf Cat.book ["19117"]
        (fun _ _ => AttemptOutcome.timeout (α := String)) 1 none none
        ["19117"]).bulk_data.length
      + (bulkRunOf Cat.book ["19117"]
        (fun _ _ => AttemptOutcome.timeout (α := String)) 1 none none
        ["19117"]).failed_items.length = 1) ∧
    ("19117" ∈ runOutcomeIds (bulkRunOf Cat.book ["19117", "7784"]
        (fun id_ _ => if id_ = "19117" then AttemptOutcome.success "19117"
          else AttemptOutcome.fatal) 1 none none ["7784", "19117"])
      ↔ "19117" ∈ ["19117", "7784"]) :=
  ⟨(c6_outcomes_complete "book" ["19117"] ["19117"]
      (fun _ _ => AttemptOutcome.timeout) 1 none none _
      (by decide) rfl).1,
   (c6_outcomes_complete "book" ["19117", "7784"] ["7784", "19117"]
      (fun id_ _ => if id_ = "19117" then AttemptOutcome.success "19117"
        else AttemptOutcome.fatal) 1 none none _
      (by decide) rfl).2 Cat.book rfl (by decide) "19117"⟩

/-- C7 counterexample: supplying `batch_size` without `batch_delay` is NOT
a configuration error — the run proceeds normally (the orchestrator never
validates the batch options; `if batch_delay and batch_size` merely
disables pacing), contradicting the claim that mutually-inconsistent batch
options raise synchronously. -/
theorem c7_batch_size_without_delay_not_rejected :
    (bulk_load_aio (α := Unit) "book" ["19117"] (fun _ _ => AttemptOutcome.success ()) 1
        none (some 5) ["19117"]).isOk = true ∧
    (bulk_load_aio (α := Unit) "book" ["19117"] (fun _ _ => AttemptOutcome.success ()) 1
        none (some 5) ["19117"]).toOption.map BulkRun.batch_sleeps = some 0 :=
  ⟨rfl, rfl⟩

/-- C7 as amended: only an invalid category is rejected — a `ValueError`
raised synchronously, for every loader behaviour and before any task or
loader invocation (the error is independent of `behavior`, `identifiers`
and the drain); the batch options are never validated: `batch_size`
without `batch_delay` does not raise, the run completes with pacing
silently disabled. -/
theorem c7_config_validation :
    (∀ (category : String) (identifiers : List String)
        (behavior : String → ℕ → AttemptOutcome Unit) (n : ℤ) (bd bs : Option ℤ)
        (completed : List String),
        pyLower category ∉ valid_categories →
        bulk_load_aio category identifiers behavior n bd bs completed =
          Except.error BulkError.valueError) ∧
    (∀ (identifiers : List String) (behavior : String → ℕ → AttemptOutcome Unit)
        (n : ℤ) (bs : ℤ) (completed : List String),
        identifiers ≠ [] →
        (bulk_load_aio "book" identifiers behavior n none (some bs) completed).isOk
          = true) := by
  constructor
  · intro category identifiers behavior n bd bs completed hbad
    unfold bulk_load_aio
    rw [if_neg hbad]
  · intro identifiers behavior n bs completed hne
    unfold bulk_load_aio
    rw [if_pos (by decide : pyLower "book" ∈ valid_categories)]
    show (if identifiers.length = 0 then
        (Except.error BulkError.zeroDivisionError : Except BulkError (BulkRun Unit))
      else Except.ok
        (bulkRunOf Cat.book identifiers behavior n none (some bs) completed)).isOk = true
    rw [if_neg (fun hz => hne (List.length_eq_zero.mp hz))]
    rfl

/-- C7 witness: an unknown category is rejected with `ValueError`, while
`batch_size = 5` with `batch_delay = None` runs to completion. -/
theorem c7_witness :
    bulk_load_aio (α := Unit) "shelf" ["19117"] (fun _ _ => AttemptOutcome.timeout) 1
        none (some 5) ["19117"] = Except.error BulkError.valueError ∧
    (bulk_load_aio (α := Unit) "book" ["19117"] (fun _ _ => AttemptOutcome.timeout) 1
        none (some 5) ["19117"]).isOk = true :=
  ⟨c7_config_validation.1 "shelf" ["19117"] (fun _ _ => AttemptOutcome.timeout) 1
      none (some 5) ["19117"] (by decide),
   c7_config_validation.2 ["19117"] (fun _ _ => AttemptOutcome.timeout) 1 5 ["19117"]
      (by decide)⟩

/-- C8 counterexample: the serialized report's keys are not the claimed
field list — `query_start`/`query_end` instead of `start_time`/`end_time`,
`successes`/`failures` instead of `succeeded`/`failed`, and the failed
identifiers are keyed by the category-dependent name `books_failed`, not
`failed_identifiers`. -/
theorem c8_report_keys_differ :
    (json_dat "book" "t0" "t1" 3 2 1 ["7784"] (2 / 3)).map Prod.fst
      ≠ spec_report_fields := by
  decide

/-- C8 as amended: for every run, the serialized report contains exactly
the fields `category`, `query_start`, `query_end`, `attempted`,
`successes`, `failures`, `<category>s_failed` (the lowered category name
with suffix `s_failed`), `success_rate`, `results`, in this order. -/
theorem c8_report_fields (cat t0 t1 : String) (a s : ℕ) (f : ℤ)
    (fi : List String) (sr : ℚ) :
    (json_dat cat t0 t1 a s f fi sr).map Prod.fst =
      ["category", "query_start", "query_end", "attempted", "successes", "failures",
       cat ++ "s_failed", "success_rate", "results"] := rfl

/-- C9: in every state reachable from the start of a run whose semaphore
was created with capacity `N ≥ 1`, at most `N` loader invocations are
inside their `async with semaphore` body at once; and a task whose body
has completed can always release its slot — the release transition is
unguarded, mirroring that `async with` releases on every exit path. -/
theorem c9_gate_bound (N : ℕ) (identifiers : List String) (s : List TaskPhase)
    (hN : 1 ≤ N) (hreach : GateReachable N identifiers s) :
    inFlight s ≤ N ∧
    (∀ pre post, s = pre ++ TaskPhase.inBody 0 :: post →
      GateStep N s (pre ++ TaskPhase.finished :: post)) := by
  constructor
  · induction hreach with
    | refl =>
      rw [inFlight_initTasks]
      exact Nat.zero_le N
    | tail hsteps hstep ih => exact inFlight_le_of_gateStep N _ _ hstep ih
  · intro pre post hs
    rw [hs]
    exact GateStep.release pre post

/-- C9 witness: five identifiers, capacity 2, at the initial state. -/
theorem c9_witness :
    inFlight (initTasks ["1", "2", "3", "4", "5"]) ≤ 2 :=
  (c9_gate_bound 2 ["1", "2", "3", "4", "5"] (initTasks ["1", "2", "3", "4", "5"])
    (by decide) Relation.ReflTransGen.refl).1

/-- C10: a category string whose lowercase form is valid but which is not
itself lowercase (so it cannot be a key of `cat_fn_map`, whose keys are
the three lowercase names) passes the category validation — which tests
`category.lower()` — and then crashes with a `KeyError` at
`cat_fn_map[category]`, which indexes with the ORIGINAL string; this
happens before the client session is opened and before any task or loader
runs, for every loader behaviour. -/
theorem c10_mixed_case_category_keyerror {α : Type} (category : String)
    (identifiers : List String) (behavior : String → ℕ → AttemptOutcome α)
    (n : ℤ) (bd bs : Option ℤ) (completed : List String)
    (h1 : pyLower category ∈ valid_categories) (h2 : category ≠ pyLower category) :
    bulk_load_aio category identifiers behavior n bd bs completed =
      Except.error BulkError.keyError := by
  have hb : category ≠ "book" := fun he => h2 (by rw [he]; rfl)
  have hu : category ≠ "user" := fun he => h2 (by rw [he]; rfl)
  have ha : category ≠ "author" := fun he => h2 (by rw [he]; rfl)
  have hlook : cat_fn_map.lookup category = none := by
    have eb : (category == "book") = false := by simp [hb]
    have eu : (category == "user") = false := by simp [hu]
    have ea : (category == "author") = false := by simp [ha]
    simp only [cat_fn_map, List.lookup, eb, eu, ea]
  unfold bulk_load_aio
  rw [if_pos h1, hlook]

/-- C10 witness: `category = "Book"` lowers to the valid name `"book"` but
raises `KeyError` at the loader lookup. -/
theorem c10_witness :
    (pyLower "Book" ∈ valid_categories) ∧ ("Book" ≠ pyLower "Book") ∧
    bulk_load_aio (α := Unit) "Book" ["19117"] (fun _ _ => AttemptOutcome.timeout) 1
        none none ["19117"] = Except.error BulkError.keyError :=
  ⟨by decide, by decide,
   c10_mixed_case_category_keyerror "Book" ["19117"] (fun _ _ => AttemptOutcome.timeout)
     1 none none ["19117"] (by decide) (by decide)⟩

end Kulchur
